import Mathlib

/-!
Shallow embedding of the music-dashboard services (searchService.js,
fixService.js, mockData.js) and proofs about the claims of the spec.

Text is modelled as `String`; JS string operations are mirrored on the
underlying character lists.  Scores that JS computes with floating-point
division are modelled as exact rationals (`ℚ`); all divisions in the source
produce small exact ratios, and the claims are about those ratios.
-/

namespace MusicDashboard

/-- JS `String.prototype.trim()` on a character list: drop leading and
trailing whitespace. -/
def jsTrim (l : List Char) : List Char :=
  ((l.dropWhile Char.isWhitespace).reverse.dropWhile Char.isWhitespace).reverse

/-- Characters of `s.toLowerCase()`. -/
def lowerChars (s : String) : List Char :=
  s.data.map Char.toLower

/-- Characters of `s.toLowerCase().trim()`, the normalization performed at the
top of `calculateSimilarity`. -/
def normChars (s : String) : List Char :=
  jsTrim (lowerChars s)

/-- JS `big.includes(small)`: `small` occurs in `big` as a contiguous
substring. -/
def occursIn (small big : List Char) : Bool :=
  match big with
  | [] => small.isEmpty
  | _ :: t => small.isPrefixOf big || occursIn small t

/-- `calculateSimilarity` from searchService.js.

```js
const calculateSimilarity = (str1, str2) => {
  if (!str1 || !str2) return 0;
  str1 = str1.toLowerCase().trim();
  str2 = str2.toLowerCase().trim();
  if (str1 === str2) return 1;
  if (str1.includes(str2) || str2.includes(str1)) return 0.8;
  const chars1 = str1.split(...);   // character lists
  const chars2 = str2.split(...);
  const commonChars = chars1.filter(char => chars2.includes(char));
  return commonChars.length / Math.max(chars1.length, chars2.length);
};
```

`str1.includes(str2)` means `str2` occurs in `str1` as a contiguous
substring, i.e. `s2.isInfixOf s1` on the normalized character lists.  The
falsy check fires for the original (untrimmed) empty string only. -/
def calculateSimilarity (str1 str2 : String) : ℚ :=
  if str1 = "" ∨ str2 = "" then 0
  else if normChars str1 = normChars str2 then 1
  else if occursIn (normChars str2) (normChars str1) ||
          occursIn (normChars str1) (normChars str2) then 8/10
  else
    (((normChars str1).filter (fun c => (normChars str2).contains c)).length : ℚ) /
      ((max (normChars str1).length (normChars str2).length : ℕ) : ℚ)

/-- Apostrophe character (U+0027), used inside fixture strings. -/
def apo : String := String.singleton (Char.ofNat 39)

/-- A song record of the fixture catalog (searchService.js). -/
structure Song where
  id : ℕ
  song : String
  artist0 : String
  createdAt : String
  artistCount : ℕ
  genre0 : Option String := none
  releaseYear : Option ℕ := none
  album : Option String := none
deriving DecidableEq

/-- An artist record of the fixture catalog. -/
structure Artist where
  id : ℕ
  name : String
  songCount : ℕ
  primaryCount : ℕ
  featuredCount : ℕ
deriving DecidableEq

/-- `mockRecentSongs` from mockData.js. -/
def mockRecentSongs : List Song := [
  ⟨47823, "Anti-Hero", "Taylor Swift", "2024-06-20T15:30:00Z", 1, none, none, none⟩,
  ⟨47822, "Flowers", "Miley Cyrus", "2024-06-20T14:45:00Z", 1, none, none, none⟩,
  ⟨47821, "Unholy", "Sam Smith", "2024-06-20T13:20:00Z", 2, none, none, none⟩,
  ⟨47820, "As It Was", "Harry Styles", "2024-06-20T12:15:00Z", 1, none, none, none⟩,
  ⟨47819, "Heat Waves", "Glass Animals", "2024-06-20T11:30:00Z", 1, none, none, none⟩,
  ⟨47818, "Bad Habit", "Steve Lacy", "2024-06-20T10:45:00Z", 1, none, none, none⟩,
  ⟨47817, "I" ++ apo ++ "m Good (Blue)", "David Guetta", "2024-06-20T09:20:00Z", 2, none, none, none⟩,
  ⟨47816, "Creepin" ++ apo, "Metro Boomin", "2024-06-20T08:15:00Z", 3, none, none, none⟩,
  ⟨47815, "Something in the Orange", "Zach Bryan", "2024-06-20T07:30:00Z", 1, none, none, none⟩,
  ⟨47814, "About Damn Time", "Lizzo", "2024-06-20T06:45:00Z", 1, none, none, none⟩]

/-- `mockSongsDatabase` from searchService.js: the recent songs plus the
additional search fixtures. -/
def mockSongsDatabase : List Song := mockRecentSongs ++ [
  ⟨47813, "Shake It Off", "Taylor Swift", "2024-06-19T15:30:00Z", 1, some "Pop", some 2014, some "1989"⟩,
  ⟨47812, "Blinding Lights", "The Weeknd", "2024-06-19T14:20:00Z", 1, some "Pop", some 2019, some "After Hours"⟩,
  ⟨47811, "Shape of You", "Ed Sheeran", "2024-06-19T13:15:00Z", 1, some "Pop", some 2017, some "÷"⟩,
  ⟨47810, "Watermelon Sugar", "Harry Styles", "2024-06-19T12:45:00Z", 1, some "Pop", some 2020, some "Fine Line"⟩,
  ⟨47809, "Levitating", "Dua Lipa", "2024-06-19T11:30:00Z", 1, some "Pop", some 2020, some "Future Nostalgia"⟩,
  ⟨47808, "Good 4 U", "Olivia Rodrigo", "2024-06-19T10:20:00Z", 1, some "Pop Rock", some 2021, some "SOUR"⟩,
  ⟨47807, "Stay", "The Kid LAROI", "2024-06-19T09:15:00Z", 2, some "Pop", some 2021, some "Stay"⟩,
  ⟨47806, "Industry Baby", "Lil Nas X", "2024-06-19T08:45:00Z", 2, some "Hip Hop", some 2021, some "MONTERO"⟩,
  ⟨47805, "Peaches", "Justin Bieber", "2024-06-19T07:30:00Z", 3, some "R&B", some 2021, some "Justice"⟩,
  ⟨47804, "Drivers License", "Olivia Rodrigo", "2024-06-19T06:20:00Z", 1, some "Pop", some 2021, some "SOUR"⟩,
  ⟨47803, "Positions", "Ariana Grande", "2024-06-18T22:15:00Z", 1, some "R&B", some 2020, some "Positions"⟩,
  ⟨47802, "Willow", "Taylor Swift", "2024-06-18T21:30:00Z", 1, some "Alternative", some 2020, some "evermore"⟩,
  ⟨47801, "Therefore I Am", "Billie Eilish", "2024-06-18T20:45:00Z", 1, some "Alternative", some 2020, some "Therefore I Am"⟩,
  ⟨47800, "Mood", "24kGoldn", "2024-06-18T19:20:00Z", 2, some "Hip Hop", some 2020, some "Mood"⟩,
  ⟨47799, "Watermelon Sugar (Remix)", "Harry Styles", "2024-06-18T18:15:00Z", 1, some "Pop", some 2020, some "Fine Line (Deluxe)"⟩,
  ⟨47798, "Circles", "Post Malone", "2024-06-18T17:30:00Z", 1, some "Pop", some 2019, some ("Hollywood" ++ apo ++ "s Bleeding")⟩,
  ⟨47797, "Don" ++ apo ++ "t Start Now", "Dua Lipa", "2024-06-18T16:45:00Z", 1, some "Pop", some 2019, some "Future Nostalgia"⟩,
  ⟨47796, "Adore You", "Harry Styles", "2024-06-18T15:20:00Z", 1, some "Pop", some 2019, some "Fine Line"⟩,
  ⟨47795, "Blinding Lights (Remix)", "The Weeknd", "2024-06-18T14:30:00Z", 2, some "Pop", some 2020, some "After Hours (Deluxe)"⟩]

/-- `mockTopArtists` from mockData.js. -/
def mockTopArtists : List Artist := [
  ⟨1, "Taylor Swift", 234, 198, 36⟩,
  ⟨2, "Drake", 187, 156, 31⟩,
  ⟨3, "The Beatles", 156, 156, 0⟩,
  ⟨4, "Kanye West", 145, 123, 22⟩,
  ⟨5, "Beyoncé", 134, 112, 22⟩,
  ⟨6, "Ed Sheeran", 128, 98, 30⟩,
  ⟨7, "Ariana Grande", 119, 102, 17⟩,
  ⟨8, "Eminem", 115, 89, 26⟩,
  ⟨9, "Rihanna", 108, 87, 21⟩,
  ⟨10, "Justin Bieber", 98, 78, 20⟩]

/-- `mockArtistsDatabase` from searchService.js. -/
def mockArtistsDatabase : List Artist := mockTopArtists ++ [
  ⟨11, "Billie Eilish", 89, 82, 7⟩,
  ⟨12, "Dua Lipa", 76, 71, 5⟩,
  ⟨13, "Post Malone", 68, 58, 10⟩,
  ⟨14, "Olivia Rodrigo", 65, 63, 2⟩,
  ⟨15, "The Weeknd", 92, 85, 7⟩,
  ⟨16, "Lil Nas X", 45, 38, 7⟩,
  ⟨17, "24kGoldn", 34, 28, 6⟩,
  ⟨18, "The Kid LAROI", 41, 35, 6⟩]

/-- `mockSongAliases` from searchService.js, keyed by song id. -/
def mockSongAliases : List (ℕ × List String) := [
  (47823, ["Anti-Hero", "Anti Hero", "Anti-Hero (Taylor" ++ apo ++ "s Version)"]),
  (47822, ["Flowers", "Flowers (Miley Cyrus)", "Miley Cyrus - Flowers"]),
  (47799, ["Watermelon Sugar (Remix)", "Watermelon Sugar - Remix", "WS Remix"]),
  (47795, ["Blinding Lights (Remix)", "Blinding Lights - Remix", "BL Remix"]),
  (47813, ["Shake It Off", "Shake It Off (Taylor" ++ apo ++ "s Version)", "Shake It Off - 1989"])]

/-- `mockArtistAliases` from searchService.js, keyed by artist id. -/
def mockArtistAliases : List (ℕ × List String) := [
  (1, ["Taylor Swift", "T-Swift", "Taylor Alison Swift", "Tay"]),
  (2, ["Drake", "Drizzy", "Aubrey Graham", "6 God"]),
  (15, ["The Weeknd", "Abel Tesfaye", "Abel", "XO"]),
  (11, ["Billie Eilish", "Billie", "Billie Eilish Pirate Baird O" ++ apo ++ "Connell"])]

/-- JS `mockSongAliases[id]`: the alias list for a song id, when present. -/
def songAliases (id : ℕ) : Option (List String) :=
  (mockSongAliases.find? (fun p => p.1 == id)).map (fun p => p.2)

/-- JS `mockArtistAliases[id]`. -/
def artistAliases (id : ℕ) : Option (List String) :=
  (mockArtistAliases.find? (fun p => p.1 == id)).map (fun p => p.2)

/-- A `searchSongs` result item: the song record spread together with the
derived `alias_status` and `canonical_song_id` fields (the transient
`relevance` field is stripped before the item is returned). -/
structure SongResult where
  base : Song
  aliasStatus : String
  canonicalSongId : ℕ
deriving DecidableEq

/-- The relevance score `searchSongs` computes for a song:
`Math.max(calculateSimilarity(song.song, term), calculateSimilarity(song.artist_0, term))`. -/
def songRelevance (term : String) (s : Song) : ℚ :=
  max (calculateSimilarity s.song term) (calculateSimilarity s.artist0 term)

/-- The `.map` step of `searchSongs`: augment a song with its derived fields
and relevance score. -/
def scoreSong (term : String) (s : Song) : SongResult × ℚ :=
  (⟨s, if (songAliases s.id).isSome then "Has Aliases" else "No Aliases", s.id⟩,
   songRelevance term s)

/-- The recomputed relevance of a returned item, per the same scoring rule. -/
def resultRelevance (term : String) (r : SongResult) : ℚ :=
  songRelevance term r.base

/-- The `aExact` flag of the `searchSongs` comparator:
`a.song.toLowerCase().includes(searchTerm.toLowerCase())` (no trimming). -/
def titleHasTerm (term : String) (r : SongResult) : Bool :=
  occursIn (lowerChars term) (lowerChars r.base.song)

/-- The total preorder realized by the `searchSongs` comparator: `a` may be
placed at or before `b` iff the comparator value `cmp(a, b) ≤ 0`, i.e. exact
title matches first, ties broken by descending relevance. -/
def songOrder (term : String) (a b : SongResult × ℚ) : Prop :=
  if titleHasTerm term a.1 = titleHasTerm term b.1 then b.2 ≤ a.2
  else titleHasTerm term b.1 = false

instance (term : String) : DecidableRel (songOrder term) := fun a b => by
  unfold songOrder; infer_instance

instance (term : String) : IsTotal (SongResult × ℚ) (songOrder term) :=
  ⟨by
    intro a b
    unfold songOrder
    by_cases h : titleHasTerm term a.1 = titleHasTerm term b.1
    · rw [if_pos h, if_pos h.symm]
      exact le_total b.2 a.2
    · rw [if_neg h, if_neg (Ne.symm h)]
      cases hb : titleHasTerm term b.1
      · exact Or.inl rfl
      · cases ha : titleHasTerm term a.1
        · exact Or.inr rfl
        · exact absurd (ha.trans hb.symm) h⟩

instance (term : String) : IsTrans (SongResult × ℚ) (songOrder term) :=
  ⟨by
    intro a b c hab hbc
    unfold songOrder at *
    by_cases hab' : titleHasTerm term a.1 = titleHasTerm term b.1 <;>
      by_cases hbc' : titleHasTerm term b.1 = titleHasTerm term c.1
    · rw [if_pos hab'] at hab
      rw [if_pos hbc'] at hbc
      rw [if_pos (hab'.trans hbc')]
      exact le_trans hbc hab
    · rw [if_neg hbc'] at hbc
      rw [if_neg (fun h => hbc' (hab'.symm.trans h))]
      exact hbc
    · rw [if_neg hab'] at hab
      rw [if_neg (fun h => hab' (h.trans hbc'.symm))]
      exact hbc' ▸ hab
    · rw [if_neg hab'] at hab
      rw [if_neg hbc'] at hbc
      by_cases hac : titleHasTerm term a.1 = titleHasTerm term c.1
      · exfalso
        have hta : titleHasTerm term a.1 = false := hac.trans hbc
        rw [hta, hab] at hab'
        exact hab' rfl
      · rw [if_neg hac]; exact hbc⟩

/-- The resolved value of `searchSongs(term, limit)` from searchService.js
when the simulated network error does not fire:

```js
if (!searchTerm || searchTerm.length < 2) { resolve([]); return; }
const results = mockSongsDatabase
  .map(song => ({...song, alias_status, canonical_song_id: song.id,
                 relevance: Math.max(...)}))
  .filter(song => song.relevance > 0.3)
  .sort(comparator).slice(0, limit)
  .map(({ relevance, ...song }) => song);
```

The guard tests the raw `searchTerm.length` (an empty string is falsy and has
length `0 < 2`, so the falsy check is subsumed). -/
def searchSongsPure (term : String) (limit : ℕ) : List SongResult :=
  if term.length < 2 then []
  else
    ((((mockSongsDatabase.map (scoreSong term)).filter
        (fun x => decide ((3 : ℚ)/10 < x.2))).insertionSort (songOrder term)).take
      limit).map (fun x => x.1)

/-- `searchSongs` with the simulated-network-error draw made explicit: the
promise rejects when the injected error fires (checked before the guard),
otherwise resolves with the pure result. -/
def searchSongs (term : String) (limit : ℕ) (networkOk : Bool) :
    Except String (List SongResult) :=
  if networkOk then .ok (searchSongsPure term limit)
  else .error "Network connection failed"

/-- A `searchArtists` result item (artist record plus `alias_status`). -/
structure ArtistResult where
  base : Artist
  aliasStatus : String
deriving DecidableEq

/-- The `.map` step of `searchArtists`: relevance is scored against the
artist name only. -/
def scoreArtist (term : String) (a : Artist) : ArtistResult × ℚ :=
  (⟨a, if (artistAliases a.id).isSome then "Has Aliases" else "No Aliases"⟩,
   calculateSimilarity a.name term)

/-- The `aExact` flag of the `searchArtists` comparator:
`a.name.toLowerCase().startsWith(searchTerm.toLowerCase())`. -/
def nameStartsTerm (term : String) (r : ArtistResult) : Bool :=
  (lowerChars term).isPrefixOf (lowerChars r.base.name)

/-- The total preorder realized by the `searchArtists` comparator. -/
def artistOrder (term : String) (a b : ArtistResult × ℚ) : Prop :=
  if nameStartsTerm term a.1 = nameStartsTerm term b.1 then b.2 ≤ a.2
  else nameStartsTerm term b.1 = false

instance (term : String) : DecidableRel (artistOrder term) := fun a b => by
  unfold artistOrder; infer_instance

instance (term : String) : IsTotal (ArtistResult × ℚ) (artistOrder term) :=
  ⟨by
    intro a b
    unfold artistOrder
    by_cases h : nameStartsTerm term a.1 = nameStartsTerm term b.1
    · rw [if_pos h, if_pos h.symm]
      exact le_total b.2 a.2
    · rw [if_neg h, if_neg (Ne.symm h)]
      cases hb : nameStartsTerm term b.1
      · exact Or.inl rfl
      · cases ha : nameStartsTerm term a.1
        · exact Or.inr rfl
        · exact absurd (ha.trans hb.symm) h⟩

instance (term : String) : IsTrans (ArtistResult × ℚ) (artistOrder term) :=
  ⟨by
    intro a b c hab hbc
    unfold artistOrder at *
    by_cases hab' : nameStartsTerm term a.1 = nameStartsTerm term b.1 <;>
      by_cases hbc' : nameStartsTerm term b.1 = nameStartsTerm term c.1
    · rw [if_pos hab'] at hab
      rw [if_pos hbc'] at hbc
      rw [if_pos (hab'.trans hbc')]
      exact le_trans hbc hab
    · rw [if_neg hbc'] at hbc
      rw [if_neg (fun h => hbc' (hab'.symm.trans h))]
      exact hbc
    · rw [if_neg hab'] at hab
      rw [if_neg (fun h => hab' (h.trans hbc'.symm))]
      exact hbc' ▸ hab
    · rw [if_neg hab'] at hab
      rw [if_neg hbc'] at hbc
      by_cases hac : nameStartsTerm term a.1 = nameStartsTerm term c.1
      · exfalso
        have hta : nameStartsTerm term a.1 = false := hac.trans hbc
        rw [hta, hab] at hab'
        exact hab' rfl
      · rw [if_neg hac]; exact hbc⟩

/-- The resolved value of `searchArtists(term, limit)` when the simulated
network error does not fire; same shape as `searchSongsPure`, scored only
against the artist name, with a prefix-match tie-break. -/
def searchArtistsPure (term : String) (limit : ℕ) : List ArtistResult :=
  if term.length < 2 then []
  else
    ((((mockArtistsDatabase.map (scoreArtist term)).filter
        (fun x => decide ((3 : ℚ)/10 < x.2))).insertionSort (artistOrder term)).take
      limit).map (fun x => x.1)

/-- `searchArtists` with the simulated-network-error draw made explicit. -/
def searchArtists (term : String) (limit : ℕ) (networkOk : Bool) :
    Except String (List ArtistResult) :=
  if networkOk then .ok (searchArtistsPure term limit)
  else .error "Network connection failed"

/-- The `songData` bundle assembled by `getSongVariants` for a found song. -/
structure SongVariantData where
  original : ℕ × String × String × ℕ
  aliases : List (String × String)
  canonicalAliases : List (String × String)
  siblingSongs : List (ℕ × String × String × String)
  referringSongs : List (ℕ × String × String × String)
deriving DecidableEq

/-- The value `getSongVariants` resolves with. -/
structure SongVariantsResponse where
  songData : Option SongVariantData
  variants : List String
deriving DecidableEq

/-- `getSongVariants(songId)` from searchService.js, with the simulated
network-error draw explicit (the JS calls `simulateNetworkError()` before the
lookup, so the 5% draw rejects even for unknown ids).  A song record has no
`canonical_song_id` field, so `song.canonical_song_id || song.id` is
`song.id`. -/
def getSongVariants (songId : ℕ) (networkOk : Bool) :
    Except String SongVariantsResponse :=
  if networkOk = false then .error "Network connection failed"
  else
    match mockSongsDatabase.find? (fun s => s.id == songId) with
    | none => .ok ⟨none, []⟩
    | some song =>
      let aliases := (songAliases songId).getD []
      let siblings := mockSongsDatabase.filter (fun s =>
        s.id != songId && s.artist0 == song.artist0 &&
        decide ((7 : ℚ)/10 < calculateSimilarity s.song song.song))
      .ok ⟨some ⟨(song.id, song.song, song.artist0, song.id),
                 aliases.map (fun a => (a, "Direct Alias")), [],
                 siblings.map (fun s => (s.id, s.song, s.artist0, "Sibling Song")), []⟩,
           aliases⟩

/-- A fix-operation result template (`mockFixResults` entries in
fixService.js are JS objects whose counter fields differ per operation type;
absent fields are modelled as `none`). -/
structure FixResult where
  totalIssues : ℕ
  deleted : Option ℕ := none
  repaired : Option ℕ := none
  fixed : Option ℕ := none
  relationshipsCreated : Option ℕ := none
  songsProcessed : Option ℕ := none
  artistsCreated : Option ℕ := none
  errors : ℕ
  timeEstimate : ℕ
deriving DecidableEq

/-- `mockFixResults.missing_primary`. -/
def missingPrimaryFix : FixResult :=
  { totalIssues := 156, deleted := some 45, repaired := some 111, errors := 0,
    timeEstimate := 5000 }

/-- `mockFixResults.orphaned_songs`. -/
def orphanedSongsFix : FixResult :=
  { totalIssues := 234, fixed := some 234, relationshipsCreated := some 387,
    errors := 0, timeEstimate := 8000 }

/-- `mockFixResults.inconsistent_artists`. -/
def inconsistentArtistsFix : FixResult :=
  { totalIssues := 89, fixed := some 89, errors := 0, timeEstimate := 4000 }

/-- `mockFixResults.missing_secondary`. -/
def missingSecondaryFix : FixResult :=
  { totalIssues := 1234, songsProcessed := some 1234, artistsCreated := some 67,
    relationshipsCreated := some 1567, errors := 0, timeEstimate := 12000 }

/-- The `mockFixResults` template table, keyed by operation type. -/
def mockFixResults : List (String × FixResult) := [
  ("missing_primary", missingPrimaryFix),
  ("orphaned_songs", orphanedSongsFix),
  ("inconsistent_artists", inconsistentArtistsFix),
  ("missing_secondary", missingSecondaryFix)]

/-- The outcome of the JS property read `mockFixResults[operationType]`.
`mockFixResults` is an object literal, so the read consults the prototype
chain: an own key yields its numeric template; a property name inherited
from `Object.prototype` (e.g. `"toString"`) yields a truthy non-template
member (a built-in function, or `Object.prototype` itself for
`"__proto__"`); any other string yields `undefined`, which is falsy. -/
inductive JsMember where
  | own (fr : FixResult)
  | inherited
  | missing
deriving DecidableEq

/-- The own property names of an unmodified `Object.prototype`; reading any
of them on an object literal yields a truthy inherited member. -/
def objectPrototypeProps : List String :=
  ["constructor", "hasOwnProperty", "isPrototypeOf", "propertyIsEnumerable",
   "toLocaleString", "toString", "valueOf", "__defineGetter__",
   "__defineSetter__", "__lookupGetter__", "__lookupSetter__", "__proto__"]

/-- JS `mockFixResults[operationType]`, including the prototype chain. -/
def lookupFix (opType : String) : JsMember :=
  match (mockFixResults.find? (fun p => p.1 == opType)).map (fun p => p.2) with
  | some fr => .own fr
  | none => if objectPrototypeProps.contains opType then .inherited else .missing

/-- One progress callback payload of `executeFixOperation`. -/
structure ProgressEvent where
  progress : ℤ
  message : String
  phase : String
  currentStep : ℕ
  totalSteps : ℕ
deriving DecidableEq

/-- The raw (pre-rounding) progress value at a given tick:
`Math.min((currentStep / totalSteps) * 100, 100)` with `totalSteps = 100`. -/
def progressAt (step : ℕ) : ℚ :=
  min ((step : ℚ) / 100 * 100) 100

/-- The phase label and status message generated at raw progress `p` for a
given operation type (lines 68-118 of fixService.js); the pair is
`(phase, message)`.  Unknown types keep the initial empty strings. -/
def fixPhase (opType : String) (fr : FixResult) (p : ℚ) : String × String :=
  if opType = "missing_primary" then
    if p < 30 then
      ("Analysis", "Analyzing " ++ toString fr.totalIssues ++
        " songs with missing primary artists...")
    else if p < 60 then
      ("Deletion", "Deleting " ++ toString (fr.deleted.getD 0) ++ " invalid records...")
    else if p < 90 then
      ("Repair", "Repairing " ++ toString (fr.repaired.getD 0) ++ " songs with valid data...")
    else ("Verification", "Verifying fixes and updating statistics...")
  else if opType = "orphaned_songs" then
    if p < 25 then
      ("Discovery", "Finding " ++ toString fr.totalIssues ++ " orphaned songs...")
    else if p < 75 then
      ("Repair", "Creating artist relationships (" ++
        toString ⌊p * ((fr.relationshipsCreated.getD 0 : ℕ) : ℚ) / 100⌋ ++ " of " ++
        toString (fr.relationshipsCreated.getD 0) ++ ")...")
    else ("Verification", "Verifying all relationships created successfully...")
  else if opType = "inconsistent_artists" then
    if p < 40 then
      ("Analysis", "Analyzing " ++ toString fr.totalIssues ++
        " artist name inconsistencies...")
    else if p < 80 then
      ("Update", "Updating artist relationships (" ++
        toString ⌊p * ((fr.fixed.getD 0 : ℕ) : ℚ) / 100⌋ ++ " of " ++
        toString (fr.fixed.getD 0) ++ ")...")
    else ("Verification", "Verifying all artist names are consistent...")
  else if opType = "missing_secondary" then
    if p < 20 then
      ("Analysis", "Analyzing secondary artists in " ++ toString fr.totalIssues ++ " songs...")
    else if p < 40 then
      ("Creation", "Creating " ++ toString (fr.artistsCreated.getD 0) ++ " missing artists...")
    else if p < 80 then
      ("Relationships", "Creating secondary relationships (" ++
        toString ⌊p * ((fr.relationshipsCreated.getD 0 : ℕ) : ℚ) / 100⌋ ++ " of " ++
        toString (fr.relationshipsCreated.getD 0) ++ ")...")
    else ("Verification", "Verifying all secondary artist relationships...")
  else ("", "")

/-- The callback payload emitted at tick `step` (the JS reports
`Math.round(progress)`). -/
def mkFixEvent (opType : String) (fr : FixResult) (step : ℕ) : ProgressEvent :=
  { progress := round (progressAt step),
    message := (fixPhase opType fr (progressAt step)).2,
    phase := (fixPhase opType fr (progressAt step)).1,
    currentStep := step,
    totalSteps := 100 }

/-- The full tick sequence of one `executeFixOperation` run.  The interval
callback increments `currentStep` starting from 1 and clears itself on the
first tick with `progress >= 100`; with `totalSteps = 100` that is exactly
tick 100, so the run emits the ticks `1, …, 100`. -/
def fixRunEvents (opType : String) (fr : FixResult) : List ProgressEvent :=
  (List.range 100).map (fun k => mkFixEvent opType fr (k + 1))

/-- The operation display-name table (`getOperationName`); unknown types
fall back to the raw type string. -/
def operationNames : List (String × String) := [
  ("missing_primary", "Missing Primary Artists Fix"),
  ("orphaned_songs", "Orphaned Songs Fix"),
  ("inconsistent_artists", "Artist Inconsistencies Fix"),
  ("missing_secondary", "Missing Secondary Artists Fix"),
  ("comprehensive", "Comprehensive Database Enhancement"),
  ("ai_artists_deduplication", "AI Artist Deduplication"),
  ("ai_songs_deduplication", "Enhanced Song Deduplication")]

/-- `getOperationName` from fixService.js (for the operation types that
reach it in this model the `names` table has an own entry; its own
prototype-chain quirk for inherited names is noted at
`inheritedFixReport`). -/
def getOperationName (opType : String) : String :=
  ((operationNames.find? (fun p => p.1 == opType)).map (fun p => p.2)).getD opType

/-- The `results` field of a resolved fix run: the member the table read
produced.  For an own key it is the numeric template; for an inherited
`Object.prototype` name it is the inherited JS member itself (a built-in
function, or `Object.prototype`), which the model identifies by its
property name since function objects have no numeric content. -/
inductive FixResults where
  | template (fr : FixResult)
  | inheritedMember (name : String)
deriving DecidableEq

/-- JS property read `results.repaired` (`undefined` on a non-template). -/
def FixResults.repaired : FixResults → Option ℕ
  | .template fr => fr.repaired
  | .inheritedMember _ => none

/-- JS property read `results.deleted`. -/
def FixResults.deleted : FixResults → Option ℕ
  | .template fr => fr.deleted
  | .inheritedMember _ => none

/-- JS property read `results.fixed`. -/
def FixResults.fixed : FixResults → Option ℕ
  | .template fr => fr.fixed
  | .inheritedMember _ => none

/-- JS property read `results.relationshipsCreated`. -/
def FixResults.relationshipsCreated : FixResults → Option ℕ
  | .template fr => fr.relationshipsCreated
  | .inheritedMember _ => none

/-- JS property read `results.songsProcessed`. -/
def FixResults.songsProcessed : FixResults → Option ℕ
  | .template fr => fr.songsProcessed
  | .inheritedMember _ => none

/-- JS property read `results.artistsCreated`. -/
def FixResults.artistsCreated : FixResults → Option ℕ
  | .template fr => fr.artistsCreated
  | .inheritedMember _ => none

/-- JS property read `results.errors`. -/
def FixResults.errors : FixResults → Option ℕ
  | .template fr => some fr.errors
  | .inheritedMember _ => none

/-- The terminal value a fix operation resolves with. -/
structure FixReport where
  success : Bool
  operationType : String
  results : FixResults
  finalMessage : String
deriving DecidableEq

/-- The report `executeFixOperation` resolves with after the final tick and
the 500 ms settle delay, for a template-backed run. -/
def mkFixReport (opType : String) (fr : FixResult) : FixReport :=
  ⟨true, opType, .template fr, getOperationName opType ++ " completed successfully!"⟩

/-- Tick payloads of a run whose looked-up `fixResult` is an inherited
`Object.prototype` member: `fixResult.timeEstimate` is `undefined`, so the
interval delay is `NaN` (clamped to 0 by `setInterval`) — the timers still
fire; the phase/message chain matches none of the known operation types, so
both fields keep their initial empty strings; the progress arithmetic
(`min((currentStep / 100) * 100, 100)`, rounded) does not involve the
template and is unchanged, so the run still emits ticks `1, …, 100`. -/
def inheritedFixEvents : List ProgressEvent :=
  (List.range 100).map (fun k =>
    { progress := round (progressAt (k + 1)), message := "", phase := "",
      currentStep := k + 1, totalSteps := 100 })

/-- The resolution value of an inherited-member run.  Its JS `results` field
is the inherited member itself; its `finalMessage` passes that name to
`getOperationName`, whose own `names[operationType]` read also finds the
truthy inherited member and returns it, so the message renders a built-in
function (an implementation-defined string); the model stands in the
member's property name for that rendering. -/
def inheritedFixReport (opType : String) : FixReport :=
  ⟨true, opType, .inheritedMember opType, opType ++ " completed successfully!"⟩

/-- `executeFixOperation(operationType, onProgress)` from fixService.js,
with the simulated network-error draw explicit and the emitted callback
payloads returned alongside the resolved report.  The JS rejects only when
`mockFixResults[operationType]` is falsy — i.e. the string is neither an
own template key nor an `Object.prototype` property name — and does so
before the network check and before any timer is started (so no callback is
ever invoked then).  Any truthy member, template or inherited, lets the run
proceed: network check, then ticks, then resolution after the final tick. -/
def executeFixOperation (opType : String) (networkOk : Bool) :
    Except String (List ProgressEvent × FixReport) :=
  match lookupFix opType with
  | .missing => .error ("Unknown fix operation: " ++ opType)
  | .own fr =>
    if networkOk = false then .error "Network connection failed"
    else .ok (fixRunEvents opType fr, mkFixReport opType fr)
  | .inherited =>
    if networkOk = false then .error "Network connection failed"
    else .ok (inheritedFixEvents, inheritedFixReport opType)

/-- One progress callback payload of `executeComprehensiveFix` (the
phase-announcement events carry no `subProgress`). -/
structure CompEvent where
  progress : ℤ
  message : String
  phase : String
  currentPhase : ℕ
  totalPhases : ℕ
  operationName : String
  subProgress : Option ℤ := none
deriving DecidableEq

/-- The phase-announcement event emitted before sub-operation `i` starts
(`phaseWeight = 100 / 4`, `phaseStart = i * phaseWeight`). -/
def phaseAnnounceEvent (i : ℕ) (opName : String) : CompEvent :=
  { progress := round ((i : ℚ) * ((100 : ℚ) / 4)),
    message := "Starting " ++ opName ++ "...",
    phase := "Phase " ++ toString (i + 1) ++ "/4",
    currentPhase := i + 1,
    totalPhases := 4,
    operationName := opName,
    subProgress := none }

/-- Re-projection of a sub-operation tick into the overall 0-100 range:
`adjustedProgress = phaseStart + (subProgress.progress * phaseWeight / 100)`. -/
def reprojectEvent (i : ℕ) (opName : String) (e : ProgressEvent) : CompEvent :=
  { progress := round ((i : ℚ) * ((100 : ℚ) / 4) + (e.progress : ℚ) * ((100 : ℚ) / 4) / 100),
    message := e.message,
    phase := "Phase " ++ toString (i + 1) ++ "/4: " ++ e.phase,
    currentPhase := i + 1,
    totalPhases := 4,
    operationName := opName,
    subProgress := some e.progress }

/-- The aggregated totals record of `executeComprehensiveFix`. -/
structure CompTotals where
  songsProcessed : ℕ
  recordsDeleted : ℕ
  relationshipsCreated : ℕ
  artistsCreated : ℕ
  inconsistenciesFixed : ℕ
  totalErrors : ℕ
deriving DecidableEq

/-- The terminal value of `executeComprehensiveFix` (`results` keyed by
operation type in JS, modelled as four named fields plus the totals). -/
structure CompReport where
  success : Bool
  operationType : String
  missingPrimaryResults : FixResults
  inconsistentArtistsResults : FixResults
  orphanedSongsResults : FixResults
  missingSecondaryResults : FixResults
  totals : CompTotals
  finalMessage : String
deriving DecidableEq

/-- `executeComprehensiveFix(onProgress)` from fixService.js: runs the four
sub-operations strictly in sequence (`missing_primary`,
`inconsistent_artists`, `orphaned_songs`, `missing_secondary`), announcing
each phase before its sub-operation and re-projecting sub-ticks into the
overall range; on completion it aggregates the totals.  The single
network-error draw is shared by the whole run. -/
def executeComprehensiveFix (networkOk : Bool) :
    Except String (List CompEvent × CompReport) :=
  if networkOk = false then .error "Network connection failed"
  else do
    let r1 ← executeFixOperation "missing_primary" networkOk
    let r2 ← executeFixOperation "inconsistent_artists" networkOk
    let r3 ← executeFixOperation "orphaned_songs" networkOk
    let r4 ← executeFixOperation "missing_secondary" networkOk
    let events :=
      (phaseAnnounceEvent 0 "Missing Primary Artists" ::
        r1.1.map (reprojectEvent 0 "Missing Primary Artists")) ++
      (phaseAnnounceEvent 1 "Artist Inconsistencies" ::
        r2.1.map (reprojectEvent 1 "Artist Inconsistencies")) ++
      (phaseAnnounceEvent 2 "Orphaned Songs" ::
        r3.1.map (reprojectEvent 2 "Orphaned Songs")) ++
      (phaseAnnounceEvent 3 "Missing Secondary Artists" ::
        r4.1.map (reprojectEvent 3 "Missing Secondary Artists"))
    let totals : CompTotals :=
      { songsProcessed := r1.2.results.repaired.getD 0 + r3.2.results.fixed.getD 0 +
          r4.2.results.songsProcessed.getD 0,
        recordsDeleted := r1.2.results.deleted.getD 0,
        relationshipsCreated := r3.2.results.relationshipsCreated.getD 0 +
          r4.2.results.relationshipsCreated.getD 0,
        artistsCreated := r4.2.results.artistsCreated.getD 0,
        inconsistenciesFixed := r2.2.results.fixed.getD 0,
        totalErrors := r1.2.results.errors.getD 0 + r2.2.results.errors.getD 0 +
          r3.2.results.errors.getD 0 + r4.2.results.errors.getD 0 }
    pure (events,
      ⟨true, "comprehensive", r1.2.results, r2.2.results, r3.2.results, r4.2.results,
        totals, "Comprehensive database enhancement completed successfully!"⟩)

/-- Settings object of `executeAIDeduplication`. -/
structure AISettings where
  similarity : Option ℚ := none
  maxAICalls : Option ℕ := none
deriving DecidableEq

/-- JS `o || d` for an optional numeric field: `0` is falsy. -/
def jsOrNat (o : Option ℕ) (d : ℕ) : ℕ :=
  match o with
  | none => d
  | some n => if n = 0 then d else n

/-- JS `o || d` for an optional rational field. -/
def jsOrRat (o : Option ℚ) (d : ℚ) : ℚ :=
  match o with
  | none => d
  | some q => if q = 0 then d else q

/-- The synthetic `mockResults` bundle of `executeAIDeduplication`. -/
structure AIMockResults where
  similarityThreshold : ℚ
  itemsAnalyzed : ℕ
  groupsFound : ℕ
  aiCallsMade : ℕ
  aiVerified : ℕ
  highSimilarityMatches : ℕ
  aliasesCreated : ℕ
  estimatedCost : ℚ
  timeEstimate : ℕ
deriving DecidableEq

/-- The `mockResults` object for a given deduplication type and settings
(`isArtistDedup = (type === 'artists')`). -/
def aiMockResults (type : String) (settings : AISettings) : AIMockResults :=
  if type = "artists" then
    { similarityThreshold := jsOrRat settings.similarity (85/100),
      itemsAnalyzed := 1500,
      groupsFound := 45,
      aiCallsMade := jsOrNat settings.maxAICalls 50,
      aiVerified := 32,
      highSimilarityMatches := 13,
      aliasesCreated := 187,
      estimatedCost := ((jsOrNat settings.maxAICalls 50 : ℕ) : ℚ) * (1/100),
      timeEstimate := 15000 }
  else
    { similarityThreshold := jsOrRat settings.similarity (85/100),
      itemsAnalyzed := 5000,
      groupsFound := 123,
      aiCallsMade := 0,
      aiVerified := 0,
      highSimilarityMatches := 123,
      aliasesCreated := 456,
      estimatedCost := 0,
      timeEstimate := 10000 }

/-- One progress callback payload of `executeAIDeduplication`.  The JS
`estimatedCost` field is the string
`(Math.floor(progress * ai_calls_made / 100) * 0.01).toFixed(2)`; it is
modelled by the exact rational value that string renders. -/
structure AIEvent where
  progress : ℤ
  message : String
  phase : String
  currentStep : ℕ
  totalSteps : ℕ
  aiCallsUsed : ℤ
  maxAICalls : ℕ
  estimatedCost : ℚ
deriving DecidableEq

/-- Phase label and message at raw progress `p` for the AI deduplication
run (`(phase, message)`). -/
def aiPhase (type : String) (mr : AIMockResults) (p : ℚ) : String × String :=
  if type = "artists" then
    if p < 20 then
      ("Analysis", "Analyzing " ++ toString mr.itemsAnalyzed ++
        " artists for potential duplicates...")
    else if p < 60 then
      ("AI Verification", "AI verifying potential groups (" ++
        toString ⌊p * ((mr.aiCallsMade : ℕ) : ℚ) / 100⌋ ++ " of " ++
        toString mr.aiCallsMade ++ " calls)...")
    else if p < 90 then
      ("Alias Creation", "Creating aliases for verified groups (" ++
        toString ⌊p * ((mr.aliasesCreated : ℕ) : ℚ) / 100⌋ ++ " of " ++
        toString mr.aliasesCreated ++ ")...")
    else ("Verification", "Verifying AI-generated aliases and calculating success rate...")
  else
    if p < 30 then
      ("Name Cleaning", "Advanced cleaning of " ++ toString mr.itemsAnalyzed ++
        " song names...")
    else if p < 70 then
      ("Duplicate Detection", "Finding duplicates with metadata validation (" ++
        toString ⌊p * ((mr.groupsFound : ℕ) : ℚ) / 100⌋ ++ " of " ++
        toString mr.groupsFound ++ " groups)...")
    else if p < 90 then
      ("Alias Creation", "Creating song aliases (" ++
        toString ⌊p * ((mr.aliasesCreated : ℕ) : ℚ) / 100⌋ ++ " of " ++
        toString mr.aliasesCreated ++ ")...")
    else ("Verification", "Verifying enhanced song deduplication results...")

/-- The callback payload emitted at tick `step` of an AI deduplication run. -/
def mkAIEvent (type : String) (settings : AISettings) (step : ℕ) : AIEvent :=
  { progress := round (progressAt step),
    message := (aiPhase type (aiMockResults type settings) (progressAt step)).2,
    phase := (aiPhase type (aiMockResults type settings) (progressAt step)).1,
    currentStep := step,
    totalSteps := 100,
    aiCallsUsed := ⌊progressAt step * ((aiMockResults type settings).aiCallsMade : ℚ) / 100⌋,
    maxAICalls := (aiMockResults type settings).aiCallsMade,
    estimatedCost :=
      (⌊progressAt step * ((aiMockResults type settings).aiCallsMade : ℚ) / 100⌋ : ℚ) * (1/100) }

/-- The tick sequence of one `executeAIDeduplication` run (ticks `1, …, 100`,
as for `executeFixOperation`). -/
def aiRunEvents (type : String) (settings : AISettings) : List AIEvent :=
  (List.range 100).map (fun k => mkAIEvent type settings (k + 1))

/-- The terminal value of `executeAIDeduplication`. -/
structure AIReport where
  success : Bool
  operationType : String
  results : AIMockResults
  finalMessage : String
deriving DecidableEq

/-- `executeAIDeduplication(type, settings, onProgress)` from fixService.js,
with the network-error draw explicit. -/
def executeAIDeduplication (type : String) (settings : AISettings) (networkOk : Bool) :
    Except String (List AIEvent × AIReport) :=
  if networkOk = false then .error "Network connection failed"
  else
    .ok (aiRunEvents type settings,
      ⟨true, "ai_" ++ type ++ "_deduplication", aiMockResults type settings,
        "AI-Enhanced " ++ (if type = "artists" then "Artist" else "Song") ++
          " deduplication completed!"⟩)

/-! ### Helper lemmas -/

theorem occursIn_nil_left (l : List Char) : occursIn [] l = true := by
  cases l <;> rfl

theorem toLower_of_whitespace (c : Char) (h : c.isWhitespace = true) :
    c.toLower = c := by
  simp only [Char.isWhitespace, Bool.or_eq_true, decide_eq_true_eq] at h
  rcases h with ((h | h) | h) | h <;> subst h <;> decide

theorem normChars_of_whitespace (s : String) (h : ∀ c ∈ s.data, c.isWhitespace = true) :
    normChars s = [] := by
  unfold normChars lowerChars jsTrim
  have h' : ∀ c ∈ s.data.map Char.toLower, c.isWhitespace = true := by
    intro c hc
    obtain ⟨d, hd, rfl⟩ := List.mem_map.mp hc
    rw [toLower_of_whitespace d (h d hd)]
    exact h d hd
  rw [List.dropWhile_eq_nil_iff.mpr h']
  rfl

/-! ### Claim C1 -/

/-- C1 fails as stated: the pair `("aac", "abc")` reaches the bag-overlap
branch (both non-empty, unequal after normalization, neither a substring of
the other), yet `calculateSimilarity("aac", "abc") = 3/3 = 1` while
`calculateSimilarity("abc", "aac") = 2/3`: the common-character count only
scans the first argument's multiset. -/
theorem claim1_counterexample :
    ("aac" : String) ≠ "" ∧ ("abc" : String) ≠ "" ∧
    normChars "aac" ≠ normChars "abc" ∧
    occursIn (normChars "abc") (normChars "aac") = false ∧
    occursIn (normChars "aac") (normChars "abc") = false ∧
    calculateSimilarity "aac" "abc" ≠ calculateSimilarity "abc" "aac" := by
  with_unfolding_all decide

/-- C1 (amended): the similarity function is symmetric on its substring
branch — for strings that are non-empty, unequal after normalization, and
where one normalized string contains the other, both orders score `0.8`.
(The bag-overlap branch is not symmetric in general.) -/
theorem claim1_substring_branch_symmetric (x y : String) (hx : x ≠ "") (hy : y ≠ "")
    (hne : normChars x ≠ normChars y)
    (hsub : (occursIn (normChars y) (normChars x) ||
             occursIn (normChars x) (normChars y)) = true) :
    calculateSimilarity x y = calculateSimilarity y x := by
  unfold calculateSimilarity
  rw [if_neg (not_or.mpr ⟨hx, hy⟩), if_neg (not_or.mpr ⟨hy, hx⟩),
      if_neg hne, if_neg (Ne.symm hne), if_pos hsub,
      if_pos (by rwa [Bool.or_comm] at hsub)]

/-- Witness for C1 (amended) at `("ab", "abc")`. -/
theorem claim1_substring_branch_symmetric_witness :
    calculateSimilarity "ab" "abc" = calculateSimilarity "abc" "ab" :=
  claim1_substring_branch_symmetric "ab" "abc" (by decide) (by decide)
    (by decide) (by decide)

/-! ### Claim C2 -/

/-- C2 fails as stated: the guard in `searchSongs`/`searchArtists` tests the
raw `searchTerm.length`, not the trimmed length.  The query `" a"` has
trimmed length `1 < 2`, yet `searchArtists(" a", 50)` resolves with a
non-empty list (the catalog is scored: `"a"`, the trimmed term, is a
substring of most artist names, scoring `0.8 > 0.3`). -/
theorem claim2_counterexample :
    (jsTrim (" a" : String).data).length < 2 ∧
    searchArtists " a" 50 true ≠ .ok [] := by
  refine ⟨by decide, fun h => ?_⟩
  have h' : searchArtistsPure " a" 50 = [] := by simpa [searchArtists] using h
  exact absurd h' (by with_unfolding_all decide)

/-- C2 (amended): for every query whose **raw** (untrimmed) length is under 2
— which subsumes the falsy empty string — `searchSongs` and `searchArtists`
resolve to the empty list when the simulated network error does not fire;
the guard precedes the catalog scan, so no record is scored. -/
theorem claim2_short_raw_query_empty (term : String) (limit : ℕ)
    (h : term.length < 2) :
    searchSongs term limit true = .ok [] ∧ searchArtists term limit true = .ok [] := by
  refine ⟨?_, ?_⟩ <;>
    simp [searchSongs, searchArtists, searchSongsPure, searchArtistsPure, h]

/-- Witness for C2 (amended) at `term = "a"`. -/
theorem claim2_short_raw_query_empty_witness :
    searchSongs "a" 50 true = .ok [] ∧ searchArtists "a" 50 true = .ok [] :=
  claim2_short_raw_query_empty "a" 50 (by decide)

/-! ### Claim C5 -/

/-- C5 fails as stated ("never throws or rejects"): `getSongVariants` calls
`simulateNetworkError()` before the catalog lookup, so when the 5% injected
network fault fires, the promise rejects even for an unknown id (id `1` is
not a song id — all song ids are in 47795–47823). -/
theorem claim5_counterexample :
    (∀ s ∈ mockSongsDatabase, s.id ≠ 1) ∧
    getSongVariants 1 false = .error "Network connection failed" :=
  ⟨by decide, by with_unfolding_all rfl⟩

/-- C5 (amended): for every song id not present in the catalog, when the
simulated network error does not fire, `getSongVariants(id)` resolves to
`{songData: null, variants: []}` — "not found" is a representable empty
state, not an exception. -/
theorem claim5_unknown_id_null_shell (id : ℕ)
    (h : ∀ s ∈ mockSongsDatabase, s.id ≠ id) :
    getSongVariants id true = .ok ⟨none, []⟩ := by
  unfold getSongVariants
  rw [if_neg (by decide), List.find?_eq_none.mpr (by intro s hs; simpa using h s hs)]

/-- Witness for C5 (amended) at `id = 1`. -/
theorem claim5_unknown_id_null_shell_witness :
    getSongVariants 1 true = .ok ⟨none, []⟩ :=
  claim5_unknown_id_null_shell 1 (by decide)

/-! ### Claim C7 -/

/-- C7 fails as stated: the JS read `mockFixResults[operationType]` walks
the prototype chain, so `"toString"` — a string not present in the known
template set — yields a truthy inherited function.  The `!fixResult` guard
does not fire, the timer starts, the progress callback is invoked 100
times, and the promise resolves instead of rejecting. -/
theorem claim7_counterexample :
    (∀ p ∈ mockFixResults, p.1 ≠ "toString") ∧
    executeFixOperation "toString" true =
      .ok (inheritedFixEvents, inheritedFixReport "toString") ∧
    (∀ msg : String, executeFixOperation "toString" true ≠ .error msg) ∧
    inheritedFixEvents.length = 100 := by
  have hrun : executeFixOperation "toString" true =
      .ok (inheritedFixEvents, inheritedFixReport "toString") := by
    with_unfolding_all rfl
  refine ⟨by decide, hrun, fun msg h => ?_, by simp [inheritedFixEvents]⟩
  rw [hrun] at h
  cases h

/-- C7 (amended): only for operation-type strings on which the table read
yields nothing truthy — neither an own template key nor an
`Object.prototype` property name — does `executeFixOperation` reject
immediately with the descriptive error, before the network check and before
any timer; the error value carries no tick, so the progress callback is
never invoked. -/
theorem claim7_unknown_op_rejects (opType : String) (networkOk : Bool)
    (h : lookupFix opType = .missing) :
    executeFixOperation opType networkOk =
      .error ("Unknown fix operation: " ++ opType) := by
  unfold executeFixOperation
  rw [h]

/-- Witness for C7 (amended) at the unknown type `"bogus_operation"` (with
either network draw). -/
theorem claim7_unknown_op_rejects_witness :
    lookupFix "bogus_operation" = .missing ∧
    executeFixOperation "bogus_operation" false =
      .error ("Unknown fix operation: " ++ "bogus_operation") :=
  ⟨by decide, claim7_unknown_op_rejects "bogus_operation" false (by decide)⟩

/-! ### Claim C10 -/

/-- C10: a truthy whitespace-only string trims to the empty string, which is
a substring of everything, so against a string with non-empty trimmed form
both orders score `0.8` (not `0`), and two truthy whitespace-only strings
score `1.0` via the post-normalization equality branch. -/
theorem claim10_whitespace_scores (a b : String) (ha : a ≠ "")
    (haw : ∀ c ∈ a.data, c.isWhitespace = true) (hb : b ≠ "") :
    (normChars b ≠ [] →
      calculateSimilarity a b = 8/10 ∧ calculateSimilarity b a = 8/10) ∧
    ((∀ c ∈ b.data, c.isWhitespace = true) → calculateSimilarity a b = 1) := by
  have hna : normChars a = [] := normChars_of_whitespace a haw
  constructor
  · intro hnb
    have hne : normChars a ≠ normChars b := by rw [hna]; exact fun h => hnb h.symm
    constructor
    · unfold calculateSimilarity
      have hc : (occursIn (normChars b) (normChars a) ||
                 occursIn (normChars a) (normChars b)) = true := by
        rw [hna, occursIn_nil_left, Bool.or_true]
      rw [if_neg (not_or.mpr ⟨ha, hb⟩), if_neg hne, if_pos hc]
    · unfold calculateSimilarity
      have hc : (occursIn (normChars a) (normChars b) ||
                 occursIn (normChars b) (normChars a)) = true := by
        rw [hna, occursIn_nil_left, Bool.true_or]
      rw [if_neg (not_or.mpr ⟨hb, ha⟩), if_neg (Ne.symm hne), if_pos hc]
  · intro hbw
    have hnb : normChars b = [] := normChars_of_whitespace b hbw
    unfold calculateSimilarity
    rw [if_neg (not_or.mpr ⟨ha, hb⟩), if_pos (hna.trans hnb.symm)]

/-- Witness for C10 at `a = " "` with `b = "ab"` and `b = "  "`. -/
theorem claim10_whitespace_scores_witness :
    calculateSimilarity " " "ab" = 8/10 ∧ calculateSimilarity "ab" " " = 8/10 ∧
    calculateSimilarity " " "  " = 1 :=
  ⟨((claim10_whitespace_scores " " "ab" (by decide) (by decide) (by decide)).1
      (by decide)).1,
   ((claim10_whitespace_scores " " "ab" (by decide) (by decide) (by decide)).1
      (by decide)).2,
   (claim10_whitespace_scores " " "  " (by decide) (by decide) (by decide)).2
      (by decide)⟩

/-- Every member of the scored-filtered-sorted intermediate list of
`searchSongsPure` carries its own recomputed relevance and passed the 0.3
filter. -/
theorem mem_scored_songs (term : String) (x : SongResult × ℚ)
    (hx : x ∈ ((mockSongsDatabase.map (scoreSong term)).filter
      (fun x => decide ((3 : ℚ)/10 < x.2))).insertionSort (songOrder term)) :
    x.2 = resultRelevance term x.1 ∧ (3 : ℚ)/10 < x.2 := by
  rw [List.mem_insertionSort] at hx
  obtain ⟨hmem, hgt⟩ := List.mem_filter.mp hx
  refine ⟨?_, of_decide_eq_true hgt⟩
  obtain ⟨s, _, rfl⟩ := List.mem_map.mp hmem
  rfl

/-! ### Claim C4 -/

/-- C4: every item returned by `searchSongs` has recomputed relevance
`max(similarity(title, term), similarity(primary artist, term))` strictly
above `0.3` — the filter keeps only such items and the later sort, slice and
strip steps only drop or re-order items. -/
theorem claim4_relevance_above_threshold (term : String) (limit : ℕ)
    (r : SongResult) (hr : r ∈ searchSongsPure term limit) :
    (3 : ℚ)/10 < resultRelevance term r := by
  unfold searchSongsPure at hr
  by_cases h : term.length < 2
  · rw [if_pos h] at hr
    simp at hr
  · rw [if_neg h] at hr
    obtain ⟨x, hx, rfl⟩ := List.mem_map.mp hr
    obtain ⟨heq, hgt⟩ := mem_scored_songs term x (List.take_subset _ _ hx)
    exact heq ▸ hgt

/-- Witness for C4: the item for song 47823 ("Anti-Hero") is returned by
`searchSongs("anti", 50)` and its recomputed relevance exceeds 0.3. -/
theorem claim4_relevance_above_threshold_witness :
    (3 : ℚ)/10 < resultRelevance "anti"
      ⟨⟨47823, "Anti-Hero", "Taylor Swift", "2024-06-20T15:30:00Z", 1, none, none, none⟩,
        "Has Aliases", 47823⟩ :=
  claim4_relevance_above_threshold "anti" 50 _ (by
    unfold searchSongsPure
    rw [if_neg (by decide), List.take_of_length_le (by
      rw [List.length_insertionSort]
      exact le_trans (List.length_filter_le _ _) (by rw [List.length_map]; decide))]
    refine List.mem_map.mpr
      ⟨scoreSong "anti" ⟨47823, "Anti-Hero", "Taylor Swift", "2024-06-20T15:30:00Z",
          1, none, none, none⟩, ?_, by with_unfolding_all rfl⟩
    rw [List.mem_insertionSort, List.mem_filter]
    exact ⟨List.mem_map.mpr ⟨_, by decide, rfl⟩, by with_unfolding_all decide⟩)

/-! ### Claim C3 -/

/-- C3: in every `searchSongs` result list, items whose lowercase title
contains the lowercase query precede all items whose title does not,
regardless of score, and within each group relevance is descending — the
comparator realizes exactly this total preorder, and `take`/`map` preserve
sortedness. -/
theorem claim3_containment_group_order (term : String) (limit : ℕ) :
    (searchSongsPure term limit).Pairwise (fun a b =>
      (titleHasTerm term b = true → titleHasTerm term a = true) ∧
      (titleHasTerm term a = titleHasTerm term b →
        resultRelevance term b ≤ resultRelevance term a)) := by
  unfold searchSongsPure
  by_cases h : term.length < 2
  · rw [if_pos h]
    exact List.Pairwise.nil
  · rw [if_neg h, List.pairwise_map]
    refine List.Pairwise.sublist (List.take_sublist _ _) ?_
    refine List.Pairwise.imp_of_mem ?_
      (List.sorted_insertionSort (songOrder term)
        ((mockSongsDatabase.map (scoreSong term)).filter
          (fun x => decide ((3 : ℚ)/10 < x.2))))
    intro a b hma hmb hab
    obtain ⟨hea, _⟩ := mem_scored_songs term a hma
    obtain ⟨heb, _⟩ := mem_scored_songs term b hmb
    unfold songOrder at hab
    by_cases hex : titleHasTerm term a.1 = titleHasTerm term b.1
    · rw [if_pos hex] at hab
      exact ⟨fun hb => hex.trans hb, fun _ => hea ▸ heb ▸ hab⟩
    · rw [if_neg hex] at hab
      exact ⟨fun hb => absurd (hab.symm.trans hb) Bool.false_ne_true,
             fun he => absurd he hex⟩

/-- For ticks up to 100, `Math.min((step / 100) * 100, 100)` is `step`. -/
theorem progressAt_of_le (step : ℕ) (h : step ≤ 100) :
    progressAt step = (step : ℚ) := by
  unfold progressAt
  rw [div_mul_cancel₀ _ (by norm_num : (100 : ℚ) ≠ 0)]
  exact min_eq_left (by exact_mod_cast h)

/-- The rounded progress reported at tick `k + 1` is `k + 1`. -/
theorem mkFixEvent_progress (opType : String) (fr : FixResult) (k : ℕ)
    (hk : k < 100) :
    (mkFixEvent opType fr (k + 1)).progress = (k : ℤ) + 1 := by
  show round (progressAt (k + 1)) = (k : ℤ) + 1
  rw [progressAt_of_le (k + 1) (by omega), round_natCast]
  push_cast
  ring

/-- The progress projection of a full fix run is the sequence `1, …, 100`. -/
theorem fixRunEvents_progress_map (opType : String) (fr : FixResult) :
    (fixRunEvents opType fr).map (fun e => e.progress) =
      (List.range 100).map (fun k : ℕ => (k : ℤ) + 1) := by
  unfold fixRunEvents
  rw [List.map_map]
  refine List.map_congr_left ?_
  intro k hk
  exact mkFixEvent_progress opType fr k (List.mem_range.mp hk)

/-! ### Claim C6 -/

/-- C6: for every known operation type, a successful `executeFixOperation`
run resolves with the full tick sequence and its report; the emitted
percentages are non-decreasing (in fact `1, …, 100`), the final one is
exactly 100, and the report is delivered together with (hence after) that
final tick. -/
theorem claim6_fix_progress_monotone_to_100 (opType : String) (fr : FixResult)
    (h : lookupFix opType = .own fr) :
    executeFixOperation opType true =
      .ok (fixRunEvents opType fr, mkFixReport opType fr) ∧
    ((fixRunEvents opType fr).map (fun e => e.progress)).Pairwise (· ≤ ·) ∧
    ((fixRunEvents opType fr).map (fun e => e.progress)).getLast? = some 100 := by
  refine ⟨?_, ?_, ?_⟩
  · unfold executeFixOperation
    rw [h]
    exact if_neg (by decide)
  · rw [fixRunEvents_progress_map, List.pairwise_map]
    refine (List.pairwise_lt_range 100).imp ?_
    intro a b hab
    omega
  · rw [fixRunEvents_progress_map,
        show (100 : ℕ) = 99 + 1 from rfl, List.range_succ, List.map_append]
    norm_num [List.getLast?_concat]

/-- Witness for C6 at the `"missing_primary"` operation. -/
theorem claim6_fix_progress_monotone_to_100_witness :
    executeFixOperation "missing_primary" true =
      .ok (fixRunEvents "missing_primary" missingPrimaryFix,
           mkFixReport "missing_primary" missingPrimaryFix) ∧
    ((fixRunEvents "missing_primary" missingPrimaryFix).map
      (fun e => e.progress)).Pairwise (· ≤ ·) ∧
    ((fixRunEvents "missing_primary" missingPrimaryFix).map
      (fun e => e.progress)).getLast? = some 100 :=
  claim6_fix_progress_monotone_to_100 "missing_primary" missingPrimaryFix (by decide)

/-! ### Claim C8 -/

/-- C8: a successful comprehensive run announces its four phases at exactly
0, 25, 50, 75 percent (the events without a `subProgress` field), and the
resolved totals are the arithmetic sums of the four sub-operations' template
counters (processed/created/fixed counts and errors). -/
theorem claim8_comprehensive_phases_and_totals :
    ∃ evs rep, executeComprehensiveFix true = .ok (evs, rep) ∧
      (evs.filter (fun e => e.subProgress.isNone)).map (fun e => e.progress) =
        [0, 25, 50, 75] ∧
      rep.totals.songsProcessed = missingPrimaryFix.repaired.getD 0 +
        orphanedSongsFix.fixed.getD 0 + missingSecondaryFix.songsProcessed.getD 0 ∧
      rep.totals.recordsDeleted = missingPrimaryFix.deleted.getD 0 ∧
      rep.totals.relationshipsCreated = orphanedSongsFix.relationshipsCreated.getD 0 +
        missingSecondaryFix.relationshipsCreated.getD 0 ∧
      rep.totals.artistsCreated = missingSecondaryFix.artistsCreated.getD 0 ∧
      rep.totals.inconsistenciesFixed = inconsistentArtistsFix.fixed.getD 0 ∧
      rep.totals.totalErrors = missingPrimaryFix.errors + inconsistentArtistsFix.errors +
        orphanedSongsFix.errors + missingSecondaryFix.errors := by
  refine ⟨(phaseAnnounceEvent 0 "Missing Primary Artists" ::
      (fixRunEvents "missing_primary" missingPrimaryFix).map
        (reprojectEvent 0 "Missing Primary Artists")) ++
    (phaseAnnounceEvent 1 "Artist Inconsistencies" ::
      (fixRunEvents "inconsistent_artists" inconsistentArtistsFix).map
        (reprojectEvent 1 "Artist Inconsistencies")) ++
    (phaseAnnounceEvent 2 "Orphaned Songs" ::
      (fixRunEvents "orphaned_songs" orphanedSongsFix).map
        (reprojectEvent 2 "Orphaned Songs")) ++
    (phaseAnnounceEvent 3 "Missing Secondary Artists" ::
      (fixRunEvents "missing_secondary" missingSecondaryFix).map
        (reprojectEvent 3 "Missing Secondary Artists")),
    ⟨true, "comprehensive", .template missingPrimaryFix, .template inconsistentArtistsFix,
      .template orphanedSongsFix, .template missingSecondaryFix, ⟨1579, 45, 1954, 67, 89, 0⟩,
      "Comprehensive database enhancement completed successfully!"⟩,
    ?_, ?_, by decide, by decide, by decide, by decide, by decide, by decide⟩
  · with_unfolding_all rfl
  · simp only [List.filter_append, List.filter_cons, List.filter_map,
      reprojectEvent, phaseAnnounceEvent, Option.isNone_some, Option.isNone_none,
      Bool.false_eq_true, if_false, if_true, Function.comp_def]
    simp only [List.filter_false, List.map_nil, List.append_nil, List.map_cons,
      List.nil_append, List.map_append]
    with_unfolding_all decide

/-! ### Claim C9 -/

end MusicDashboard
